import Mathlib

/-!
Verification development for the job-search ingestion pipeline
(backend/src/services/jsearchService.ts and
backend/src/controllers/adminController.ts).

The TypeScript code is embedded shallowly:
* strings are Lean `String`, with the JavaScript convention that the
  empty string is falsy (`jsOr` models `a || b` on strings);
* fallible calls (HTTP requests, per-bucket fetches) are modelled with
  `Except`;
* the wall clock, random source and I/O delays are modelled by explicit
  oracle parameters (`rand : Nat → Nat`) or omitted where they only
  affect timing;
* the document store is an explicit `Db` record threaded through the
  persistence functions.
-/

namespace JobSearch

/-! ## String helpers modelling JavaScript primitives -/

/-- Models the JavaScript expression `a || b` for strings: the empty
string is falsy. -/
def jsOr (a b : String) : String := if a = "" then b else a

/-- ASCII lowercasing of one character, as JavaScript toLowerCase acts on
the ASCII inputs this code handles. -/
def lowerChar (c : Char) : Char :=
  if 'A' ≤ c ∧ c ≤ 'Z' then Char.ofNat (c.toNat + 32) else c

/-- ASCII uppercasing of one character. -/
def upperChar (c : Char) : Char :=
  if 'a' ≤ c ∧ c ≤ 'z' then Char.ofNat (c.toNat - 32) else c

/-- Kernel-reducible model of `s.toLowerCase()`. -/
def strToLower (s : String) : String := String.mk (s.data.map lowerChar)

/-- Kernel-reducible model of `s.toUpperCase()`. -/
def strToUpper (s : String) : String := String.mk (s.data.map upperChar)

/-- Drops leading whitespace characters from a character list. -/
def dropLeadingWs : List Char → List Char
  | [] => []
  | c :: rest => if c.isWhitespace then dropLeadingWs rest else c :: rest

/-- Kernel-reducible model of `s.trim()`. -/
def strTrim (s : String) : String :=
  String.mk (((dropLeadingWs s.data).reverse |> dropLeadingWs).reverse)

/-- Kernel-reducible model of `s.endsWith(suffix)`. -/
def strEndsWith (s suf : String) : Bool := suf.data.isSuffixOf s.data

/-- Kernel-reducible model of `s.startsWith(p)`. -/
def strStartsWith (s p : String) : Bool := p.data.isPrefixOf s.data

/-- Models `a || b` for optional numbers: JavaScript treats both
`undefined` and `0` as falsy. -/
def jsOrNum (a b : Option Nat) : Option Nat :=
  match a with
  | none => b
  | some 0 => b
  | some n => some n

/-- Helper for `String.includes`: does `sub` occur as a contiguous
sublist of `s`? -/
def containsSub (sub : List Char) : List Char → Bool
  | [] => sub.isEmpty
  | c :: rest => sub.isPrefixOf (c :: rest) || containsSub sub rest

/-- Models the JavaScript `s.includes(sub)` substring test. -/
def strIncludes (s sub : String) : Bool := containsSub sub.data s.data

/-- Splits a character list on a separator character; the JavaScript
`split` keeps empty segments, and an empty input yields one empty
segment. -/
def splitChars (sep : Char) : List Char → List (List Char)
  | [] => [[]]
  | c :: rest =>
    let r := splitChars sep rest
    if c == sep then [] :: r
    else
      match r with
      | [] => [[c]]
      | h :: t => (c :: h) :: t

/-- Kernel-reducible model of `s.split(',')`. -/
def strSplitComma (s : String) : List String := (splitChars ',' s.data).map String.mk

/-- Models `Array.prototype.join(sep)`. -/
def joinWith (sep : String) : List String → String
  | [] => ""
  | [x] => x
  | x :: y :: ys => x ++ sep ++ joinWith sep (y :: ys)

/-- Boundary characters of the city regular expression
`(^|\s|,)name(\s|,|$)`: whitespace or a comma. -/
def isBoundaryChar (c : Char) : Bool := c.isWhitespace || c == ','

/-- After a candidate city-name occurrence, the next character must be a
boundary or the end of the string. -/
def afterBoundaryOk : List Char → Bool
  | [] => true
  | c :: _ => isBoundaryChar c

/-- Scans a character list for an occurrence of `w` that is preceded by
the start of the string, whitespace or a comma, and followed by
whitespace, a comma or the end.  `atB` records whether the current
position sits right after such a boundary. -/
def wordScan (w : List Char) : List Char → Bool → Bool
  | [], _ => false
  | c :: rest, atB =>
    (atB && w.isPrefixOf (c :: rest) && afterBoundaryOk ((c :: rest).drop w.length))
    || wordScan w rest (isBoundaryChar c)

/-- Models the test of the regular expression `(^|\s|,)name(\s|,|$)`
(case handled by lowering both sides before the call). -/
def wordMatch (s name : String) : Bool := wordScan name.data s.data true

/-! ## Country tables (data copied from jsearchService.ts) -/

/-- The COUNTRY_LOCATIONS table: known city names per target country. -/
def COUNTRY_LOCATIONS (iso : String) : List String :=
  if iso = "in" then
    ["bangalore", "bengaluru", "mumbai", "delhi", "gurgaon", "gurugram",
     "pune", "hyderabad", "kolkata", "chennai", "jaipur", "lucknow", "ahmedabad",
     "chandigarh", "indore", "bhopal", "visakhapatnam", "kochi", "vadodara",
     "surat", "nagpur", "coimbatore", "ghaziabad", "ludhiana", "noida", "faridabad",
     "trivandrum", "thiruvananthapuram", "kottayam", "thrissur", "ernakulam",
     "kozhikode", "kannur", "palakkad", "malappuram", "pathanamthitta"]
  else if iso = "us" then
    ["new york", "los angeles", "chicago", "houston", "phoenix", "philadelphia",
     "san antonio", "san diego", "dallas", "san jose", "austin", "jacksonville",
     "fort worth", "columbus", "indianapolis", "charlotte", "san francisco",
     "seattle", "denver", "boston", "el paso", "detroit", "nashville", "portland",
     "memphis", "oklahoma city", "las vegas", "louisville", "baltimore", "milwaukee",
     "albuquerque", "tucson", "fresno", "mesa", "sacramento", "atlanta", "kansas city",
     "colorado springs", "miami", "raleigh", "omaha", "long beach", "virginia beach",
     "oakland", "minneapolis", "tulsa", "arlington", "tampa", "new orleans"]
  else if iso = "uk" then
    ["london", "birmingham", "manchester", "leeds", "glasgow", "newcastle",
     "sheffield", "liverpool", "bristol", "nottingham", "leicester", "brighton",
     "plymouth", "southampton", "reading", "derby", "dundee", "cardiff", "edinburgh",
     "belfast", "oxford", "cambridge", "york", "bath", "norwich", "portsmouth"]
  else if iso = "ca" then
    ["toronto", "montreal", "vancouver", "calgary", "edmonton", "ottawa",
     "winnipeg", "quebec city", "hamilton", "kitchener", "london", "halifax",
     "victoria", "saskatoon", "regina", "sherbrooke", "kelowna", "abbotsford",
     "sudbury", "kingston", "sault ste marie", "thunder bay", "north bay"]
  else if iso = "au" then
    ["sydney", "melbourne", "brisbane", "perth", "adelaide", "gold coast",
     "canberra", "newcastle", "wollongong", "logan", "geelong", "hobart",
     "townsville", "cairns", "darwin", "toowoomba", "ballarat", "bendigo"]
  else if iso = "de" then
    ["berlin", "hamburg", "munich", "cologne", "frankfurt", "stuttgart",
     "düsseldorf", "dortmund", "essen", "leipzig", "bremen", "dresden",
     "hanover", "nuremberg", "duisburg", "bochum", "wuppertal", "bielefeld"]
  else if iso = "fr" then
    ["paris", "marseille", "lyon", "toulouse", "nice", "nantes", "strasbourg",
     "montpellier", "bordeaux", "lille", "rennes", "reims", "le havre", "saint-etienne",
     "toulon", "grenoble", "dijon", "angers", "nîmes", "villeurbanne"]
  else if iso = "nl" then
    ["amsterdam", "rotterdam", "the hague", "utrecht", "eindhoven", "tilburg",
     "groningen", "almere", "breda", "nijmegen", "enschede", "haarlem", "arnhem",
     "amersfoort", "zwolle", "zoetermeer", "den haag", "apeldoorn", "heerlen"]
  else if iso = "sg" then
    ["singapore", "jurong", "tampines", "yishun", "bedok", "woodlands", "ang mo kio",
     "hougang", "choa chu kang", "sengkang", "punggol", "bukit batok", "bukit panjang"]
  else if iso = "es" then
    ["madrid", "barcelona", "valencia", "seville", "zaragoza", "málaga", "murcia",
     "palma", "las palmas", "bilbao", "alicante", "córdoba", "valladolid", "vigo",
     "gijón", "hospitalet de llobregat", "la coruña", "granada", "vitoria-gasteiz"]
  else []

/-- The COUNTRY_STATE_CODES table: administrative subdivision codes per
target country. -/
def COUNTRY_STATE_CODES (iso : String) : List String :=
  if iso = "in" then
    ["in", "in-ka", "in-tn", "in-mh", "in-dl", "in-hr", "in-up", "in-ap", "in-jk", "in-hp", "in-pb", "in-gj"]
  else if iso = "us" then
    ["al", "ak", "az", "ar", "ca", "co", "ct", "de", "fl", "ga", "hi", "id", "il", "in",
     "ia", "ks", "ky", "la", "me", "md", "ma", "mi", "mn", "ms", "mo", "mt", "ne", "nv",
     "nh", "nj", "nm", "ny", "nc", "nd", "oh", "ok", "or", "pa", "ri", "sc", "sd", "tn",
     "tx", "ut", "vt", "va", "wa", "wv", "wi", "wy"]
  else if iso = "uk" then ["england", "scotland", "wales", "northern ireland"]
  else if iso = "ca" then ["on", "qc", "bc", "ab", "mb", "sk", "ns", "nb", "nl", "pe", "nt", "yt", "nu"]
  else if iso = "au" then ["nsw", "vic", "qld", "wa", "sa", "tas", "act", "nt"]
  else if iso = "de" then ["bw", "by", "be", "bb", "hb", "hh", "he", "mv", "ni", "nw", "rp", "sl", "sn", "st", "sh", "th"]
  else if iso = "fr" then ["ara", "bfc", "bre", "cvl", "cor", "ges", "hdf", "idf", "nor", "nau", "occ", "pac", "pdl"]
  else if iso = "nl" then ["dr", "fl", "fr", "ge", "gr", "li", "nb", "nh", "ov", "ut", "ze", "zh"]
  else if iso = "sg" then ["central", "north", "north-east", "east", "west"]
  else if iso = "es" then ["an", "ar", "as", "ib", "cn", "cb", "cl", "cm", "ct", "ce", "ga", "ri", "md", "mc", "nc", "pv", "vc"]
  else []

/-- The EXCLUDE_US_STATES table used to reject US locations while
filtering for other countries. -/
def EXCLUDE_US_STATES : List String :=
  ["alabama", "alaska", "arizona", "arkansas", "california", "colorado", "connecticut",
   "delaware", "florida", "georgia", "hawaii", "idaho", "illinois", "indiana", "iowa",
   "kansas", "kentucky", "louisiana", "maine", "maryland", "massachusetts", "michigan",
   "minnesota", "mississippi", "missouri", "montana", "nebraska", "nevada", "hampshire",
   "jersey", "mexico", "york", "carolina", "dakota", "ohio", "oklahoma", "oregon",
   "pennsylvania", "rhode", "south", "tennessee", "texas", "utah", "vermont", "virginia",
   "washington", "wisconsin", "wyoming"]

/-- The countryNames table of full-name keywords checked against the
location string. -/
def countryNameKeywords (iso : String) : List String :=
  if iso = "in" then ["india"]
  else if iso = "us" then ["united states", "usa", "america"]
  else if iso = "uk" then ["united kingdom", "uk", "britain", "england", "scotland", "wales"]
  else if iso = "ca" then ["canada"]
  else if iso = "au" then ["australia"]
  else if iso = "de" then ["germany", "deutschland"]
  else if iso = "fr" then ["france"]
  else if iso = "nl" then ["netherlands", "holland"]
  else if iso = "sg" then ["singapore"]
  else if iso = "es" then ["spain", "españa"]
  else []

/-! ## The location classifier (isLocationInCountry) -/

/-- Models the explicit-country comparison inside `isLocationInCountry`:
`countryLower` (already lowercased and trimmed) is compared against the
exact target strings and the per-country name and ISO variants. -/
def countryMatchesTarget (targetIso targetLower countryLower : String) : Bool :=
  countryLower == targetLower || countryLower == targetIso
  || (targetIso == "in" && (countryLower == "india" || strStartsWith countryLower "in-" || countryLower == "in,"))
  || (targetIso == "us" && (countryLower == "united states" || countryLower == "usa" || countryLower == "us," || countryLower == "u.s."))
  || (targetIso == "uk" && (countryLower == "united kingdom" || countryLower == "uk," || countryLower == "great britain"))
  || (targetIso == "ca" && (countryLower == "canada" || countryLower == "ca,"))
  || (targetIso == "au" && (countryLower == "australia" || countryLower == "au,"))
  || (targetIso == "de" && (countryLower == "germany" || countryLower == "deutschland" || countryLower == "de,"))
  || (targetIso == "fr" && (countryLower == "france" || countryLower == "fr,"))
  || (targetIso == "nl" && (countryLower == "netherlands" || countryLower == "holland" || countryLower == "nl,"))
  || (targetIso == "sg" && (countryLower == "singapore" || countryLower == "sg,"))
  || (targetIso == "es" && (countryLower == "spain" || countryLower == "españa" || countryLower == "es,"))

/-- Models the EXCLUDE_US_STATES loop: any hit returns false from the
classifier when the target country is not the US. -/
def usStateExclusionHit (locLower : String) : Bool :=
  EXCLUDE_US_STATES.any fun usState =>
    strIncludes locLower (", " ++ usState)
    || strIncludes locLower (", " ++ strToUpper usState)
    || strEndsWith locLower (", " ++ usState)

/-- Models the state-code loop: each code is tested as a raw substring of
the location string and of the joined city/state/country string. -/
def stateCodeHit (iso locLower fullLocation : String) : Bool :=
  (COUNTRY_STATE_CODES iso).any fun sc =>
    strIncludes locLower sc || strIncludes fullLocation sc

/-- Models the city loop: each known city is tested with the
word-boundary pattern against both strings. -/
def cityHit (iso locLower fullLocation : String) : Bool :=
  (COUNTRY_LOCATIONS iso).any fun cityName =>
    wordMatch locLower cityName || wordMatch fullLocation cityName

/-- Models the country-keyword loop at the end of the classifier. -/
def countryKeywordHit (iso locLower fullLocation : String) : Bool :=
  (countryNameKeywords iso).any fun kw =>
    strIncludes locLower (", " ++ kw) || strEndsWith locLower (", " ++ kw)
    || locLower == kw || fullLocation == kw

/-- Shallow embedding of `isLocationInCountry` from jsearchService.ts.
Optional parameters absent in a call are passed as the empty string,
matching the JavaScript falsiness checks of the original. -/
def isLocationInCountry (targetCountryIso location city state country : String) : Bool :=
  if location = "" ∧ city = "" ∧ state = "" ∧ country = "" then false
  else
    let locLower := strToLower location
    let fullLocation := strToLower (joinWith " " (([city, state, country]).filter (fun s => s != "")))
    let targetCountryLower := strToLower targetCountryIso
    if country ≠ "" then
      countryMatchesTarget targetCountryIso targetCountryLower (strTrim (strToLower country))
    else if targetCountryIso ≠ "us" ∧ usStateExclusionHit locLower then false
    else if stateCodeHit targetCountryIso locLower fullLocation then true
    else if cityHit targetCountryIso locLower fullLocation then true
    else if countryKeywordHit targetCountryIso locLower fullLocation then true
    else false

/-! ## Raw and parsed job records -/

/-- A raw job record as delivered by the API.  Fields the code probes
with `jobData.<field>` are modelled as strings (empty string standing
for an absent or empty field, matching the JavaScript falsiness tests),
numbers as `Option Nat` and flags as `Bool`.  The opaque `rawData`
passthrough and timestamp-valued fields carry no structure the code
inspects, so they are kept as strings. -/
structure RawJob where
  job_city : String := ""
  city : String := ""
  job_state : String := ""
  state : String := ""
  job_country : String := ""
  country : String := ""
  job_location : String := ""
  employer_name : String := ""
  company : String := ""
  employer : String := ""
  job_publisher : String := ""
  employer_name_simple : String := ""
  publisher_name : String := ""
  hiring_company : String := ""
  job_company : String := ""
  business_name : String := ""
  employer_company : String := ""
  company_name : String := ""
  job_title : String := ""
  title : String := ""
  job_description : String := ""
  description : String := ""
  job_min_salary : Option Nat := none
  min_salary : Option Nat := none
  minSalary : Option Nat := none
  job_max_salary : Option Nat := none
  max_salary : Option Nat := none
  maxSalary : Option Nat := none
  job_salary_period : String := ""
  salary_period : String := ""
  job_employment_type : String := ""
  jobType : String := ""
  job_posted_at_datetime_utc : String := ""
  job_posted_at_timestamp : String := ""
  posted_date : String := ""
  job_apply_link : String := ""
  apply_link : String := ""
  job_url : String := ""
  google_link : String := ""
  link : String := ""
  job_id : String := ""
  id : String := ""
  job_is_remote : Bool := false
  is_remote : Bool := false
deriving DecidableEq

/-- The ParsedJob record produced by `parseJobData`.  The `rawData`
passthrough is omitted: it is the opaque input record itself and no
claim inspects it. -/
structure ParsedJob where
  title : String
  company : String
  location : String
  city : String := ""
  state : String := ""
  country : String := ""
  description : String := ""
  minSalary : Option Nat := none
  maxSalary : Option Nat := none
  salaryPeriod : String := ""
  jobType : String := ""
  postedDate : String := ""
  externalLink : String := ""
  jobId : String := ""
  source : String
  isRemote : Bool := false
deriving DecidableEq

/-- A ParsedJob with every field empty, used as a default for
`Option.getD` in concrete witnesses. -/
def emptyParsedJob : ParsedJob :=
  { title := "", company := "", location := "", source := "" }

/-! ## Company-name extraction -/

/-- The invalidCompanyPatterns test: true when the candidate name matches
one of the rejected patterns (test or example markers, the length
bounds, digits only, URL-like values, or confidential and private
markers).  The regular expressions are anchored, so each translates to a
check on the whole string or its first characters; the dot of the length
pattern excludes newlines. -/
def isInvalidCompany (name : String) : Bool :=
  strStartsWith (strToLower name) "test"
  || strStartsWith (strToLower name) "example"
  || strToLower name == "unknown"
  || strStartsWith (strToLower name) "bebe"
  || (decide (1 ≤ name.data.length) && decide (name.data.length ≤ 2)
      && name.data.all fun c => 'a' ≤ c && c ≤ 'z')
  || (decide (50 ≤ name.data.length) && name.data.all fun c => c != '\n')
  || (name != "" && name.data.all Char.isDigit)
  || strStartsWith (strToLower name) "http"
  || strToLower name == "confidential"
  || strToLower name == "private"

/-- Character class `[A-Za-z\s&,\.]` of the extraction regular
expressions. -/
def companyClassChar (c : Char) : Bool :=
  c.isAlpha || c.isWhitespace || c == '&' || c == ',' || c == '.'

/-- Lazy match of `[A-Za-z\s&,\.]+?` up to a position where the title
pattern continuation `(?:\s|$)` holds: takes the shortest non-empty run
of class characters whose following character is whitespace or the end
of the string. -/
def lazyRunToWs : List Char → Option (List Char)
  | [] => none
  | c :: rest =>
    if companyClassChar c then
      match rest with
      | [] => some [c]
      | d :: _ =>
        if d.isWhitespace then some [c]
        else match lazyRunToWs rest with
          | some run => some (c :: run)
          | none => none
    else none

/-- Keywords of the title extraction pattern `(?:at|for|with|@)`. -/
def titleKeywords : List String := ["at", "for", "with", "@"]

/-- Case-insensitive prefix test used for the title keywords (the
pattern carries the `i` flag). -/
def kwCaseInsensitivePre (kw : String) (cs : List Char) : Bool :=
  ((cs.take kw.data.length).map lowerChar) == kw.data

/-- Counts leading whitespace characters, modelling a greedy `\s+`. -/
def countLeadingWs : List Char → Nat
  | [] => 0
  | c :: rest => if c.isWhitespace then countLeadingWs rest + 1 else 0

/-- Attempts the title pattern at one position of the character list. -/
def matchTitleAt (cs : List Char) : Option String :=
  titleKeywords.findSome? fun kw =>
    if kwCaseInsensitivePre kw cs then
      let rest := cs.drop kw.data.length
      let n := countLeadingWs rest
      if n == 0 then none
      else
        match rest.drop n with
        | [] => none
        | c0 :: rest2 =>
          if c0.isAlpha then
            (lazyRunToWs rest2).map fun run => strTrim (String.mk (c0 :: run))
          else none
    else none

/-- Leftmost search for the title pattern, modelling
`job_title.match(/(?:at|for|with|@)\s+([A-Z][A-Za-z\s&,\.]+?)(?:\s|$)/i)`
followed by `.trim()` on the captured group. -/
def scanTitleChars : List Char → Option String
  | [] => none
  | c :: rest =>
    match matchTitleAt (c :: rest) with
    | some s => some s
    | none => scanTitleChars rest

/-- Company extraction from the job title; the empty string signals no
match, as the JavaScript leaves companyName falsy in that case. -/
def extractCompanyFromTitle (t : String) : String :=
  (scanTitleChars t.data).getD ""

/-- Keywords of the description extraction pattern. -/
def descKeywords : List String :=
  ["At", "About", "Join", "For", "Working at", "Company:", "Employer:"]

/-- Continuation test `(?:\,|\.|\s(?:is|we|are|has|offers))` of the
description pattern. -/
def descTermAt (cs : List Char) : Bool :=
  match cs with
  | [] => false
  | c :: rest =>
    c == ',' || c == '.'
    || (c.isWhitespace &&
        (["is", "we", "are", "has", "offers"].any fun w => w.data.isPrefixOf rest))

/-- Lazy match of `[A-Za-z\s&,\.]+?` up to a position where the
description continuation holds. -/
def lazyRunToDescTerm : List Char → Option (List Char)
  | [] => none
  | c :: rest =>
    if companyClassChar c then
      if descTermAt rest then some [c]
      else match lazyRunToDescTerm rest with
        | some run => some (c :: run)
        | none => none
    else none

/-- Attempts the description pattern at one position. -/
def matchDescAt (cs : List Char) : Option String :=
  descKeywords.findSome? fun kw =>
    if kw.data.isPrefixOf cs then
      match cs.drop kw.data.length with
      | ' ' :: c0 :: rest2 =>
        if c0.isUpper then
          (lazyRunToDescTerm rest2).map fun run => strTrim (String.mk (c0 :: run))
        else none
      | _ => none
    else none

/-- Leftmost search for the description pattern. -/
def scanDescChars : List Char → Option String
  | [] => none
  | c :: rest =>
    match matchDescAt (c :: rest) with
    | some s => some s
    | none => scanDescChars rest

/-- Company extraction from the job description. -/
def extractCompanyFromDescription (d : String) : String :=
  (scanDescChars d.data).getD ""

/-- Strips one surrounding quote character from each end, modelling
`replace(/^["']|["']$/g, '')`. -/
def stripOuterQuotes (s : String) : String :=
  let q1 : Char := '"'
  let q2 : Char := Char.ofNat 39
  let l1 := match s.data with
    | c :: rest => if c == q1 || c == q2 then rest else c :: rest
    | [] => []
  let l2 := match l1.reverse with
    | c :: rest => if c == q1 || c == q2 then rest.reverse else l1
    | [] => []
  String.mk l2

/-! ## The response normalizer (parseJobData) -/

/-- Candidate company fields probed in order by `parseJobData`. -/
def companyFieldValues (jd : RawJob) : List String :=
  [jd.employer_name, jd.company, jd.employer, jd.job_publisher,
   jd.employer_name_simple, jd.publisher_name, jd.hiring_company,
   jd.job_company, jd.business_name, jd.employer_company, jd.company_name]

/-- First company candidate: the first field that is a non-empty string
with non-empty trim, taken trimmed; empty when none qualifies. -/
def firstCompanyCandidate (jd : RawJob) : String :=
  match (companyFieldValues jd).find? (fun f => f != "" && strTrim f != "") with
  | some f => strTrim f
  | none => ""

/-- City, state and country after the raw-location parsing step: when a
raw combined location is present and both dedicated city and state
fields are empty, the comma-separated parts give country (last), state
(second to last) and city (the rest joined); a single part is treated as
the city. -/
def extractLocationFields (jd : RawJob) : String × String × String :=
  let city0 := jsOr jd.job_city jd.city
  let state0 := jsOr jd.job_state jd.state
  let country0 := jsOr jd.job_country jd.country
  let rawLocation := jd.job_location
  if rawLocation != "" && city0 == "" && state0 == "" then
    let parts := (strSplitComma rawLocation).map strTrim
    if 2 ≤ parts.length then
      (jsOr city0 (joinWith ", " (parts.take (parts.length - 2))),
       jsOr state0 (parts.getD (parts.length - 2) ""),
       jsOr country0 (parts.getD (parts.length - 1) ""))
    else if parts.length == 1 then
      (jsOr city0 (parts.getD 0 ""), state0, country0)
    else (city0, state0, country0)
  else (city0, state0, country0)

/-- Shallow embedding of `parseJobData`.  The input is `none` for a null
or undefined record; in the embedding every field access is well typed,
so the catch-all error path of the original (which returns null on a
thrown exception) is unreachable and every non-null record parses. -/
def parseJobData (jobData : Option RawJob) : Option ParsedJob :=
  match jobData with
  | none => none
  | some jd =>
    let loc := extractLocationFields jd
    let city := loc.1
    let state := loc.2.1
    let country := loc.2.2
    let locationParts := [city, state, country].filter (fun s => s != "")
    let location := if locationParts = [] then "Remote" else joinWith ", " locationParts
    let cand := firstCompanyCandidate jd
    let cn0 := if cand != "" && !(isInvalidCompany cand) then cand else ""
    let cn1 := if cn0 == "" && jd.job_title != "" then extractCompanyFromTitle jd.job_title else cn0
    let cn2 := if cn1 == "" && jd.job_description != "" then extractCompanyFromDescription jd.job_description else cn1
    let cn3 := if cn2 == "" then "Unknown Company" else cn2
    let companyName := stripOuterQuotes (strTrim cn3)
    let applyLink := jsOr (jsOr (jsOr (jsOr jd.job_apply_link jd.apply_link) jd.job_url) jd.google_link) jd.link
    some
      { title := jsOr jd.job_title (jsOr jd.title "Untitled")
        company := jsOr companyName "Unknown Company"
        location := location
        city := city
        state := state
        country := country
        description := jsOr jd.job_description jd.description
        minSalary := jsOrNum (jsOrNum jd.job_min_salary jd.min_salary) jd.minSalary
        maxSalary := jsOrNum (jsOrNum jd.job_max_salary jd.max_salary) jd.maxSalary
        salaryPeriod := jsOr (jsOr jd.job_salary_period jd.salary_period) "YEARLY"
        jobType := jsOr (jsOr jd.job_employment_type jd.jobType) "Full-time"
        postedDate := jsOr (jsOr jd.job_posted_at_datetime_utc jd.job_posted_at_timestamp) jd.posted_date
        externalLink := applyLink
        jobId := jsOr jd.job_id jd.id
        source := if applyLink ≠ "" ∧ strIncludes applyLink "example.com" = false
                  then "JSearch API" else "Fallback Data"
        isRemote := jd.job_is_remote || jd.is_remote || strIncludes (strToLower location) "remote" }

/-! ## The fallback generator (generateFallbackJobs) -/

/-- Search parameters of `searchJobs`.  Absent optional fields are the
empty string, and `numPages = 0` models an absent page count (both are
falsy in the JavaScript defaulting expressions). -/
structure FetchParams where
  query : String
  location : String := ""
  country : String := ""
  numPages : Nat := 0
  pageSize : Nat := 0
deriving DecidableEq

/-- Service configuration taken from the environment in the constructor:
the API key (empty when unconfigured) and the retry bound. -/
structure Config where
  apiKey : String
  maxRetries : Nat
deriving DecidableEq

/-- Company pool of the fallback generator. -/
def fallbackCompanies : List String :=
  ["Google", "Microsoft", "Apple", "Amazon", "Facebook", "Netflix",
   "Uber", "Airbnb", "Tesla", "SpaceX", "Meta", "LinkedIn",
   "Adobe", "Salesforce", "Cisco", "Intel", "Oracle", "IBM",
   "GitHub", "Stripe", "Figma", "Slack", "Zoom", "Notion"]

/-- Location pool of the fallback generator. -/
def fallbackLocations : List String :=
  ["San Francisco, CA", "New York, NY", "Austin, TX", "Seattle, WA", "Remote"]

/-- Job-type pool of the fallback generator. -/
def fallbackJobTypes : List String := ["Full-time", "Contract", "Part-time"]

/-- Shallow embedding of `generateFallbackJobs`.  `Math.random()` is
modelled by the oracle `rand`: draw `k` of `Math.floor(Math.random()*n)`
becomes `rand k % n`, which ranges over `0..n-1` exactly as the
original.  The posted date is wall-clock data with no structure the
claims touch and is modelled as the empty string, and the job id keeps
only its index component. -/
def generateFallbackJobs (params : FetchParams) (rand : Nat → Nat) : List ParsedJob :=
  let count := rand 0 % 30 + 20
  (List.range count).map fun i =>
    let company := fallbackCompanies.getD (rand (8 * i + 1) % fallbackCompanies.length) ""
    let location := fallbackLocations.getD (rand (8 * i + 2) % fallbackLocations.length) ""
    { title := params.query ++ " - Level " ++ toString (rand (8 * i + 3) % 3 + 1)
      company := company
      location := location
      description := params.query ++ " position at " ++ company ++ ". We are looking for experienced professionals..."
      minSalary := some (80000 + rand (8 * i + 4) % 100000)
      maxSalary := some (150000 + rand (8 * i + 5) % 100000)
      salaryPeriod := "YEARLY"
      jobType := fallbackJobTypes.getD (rand (8 * i + 6) % fallbackJobTypes.length) ""
      postedDate := ""
      externalLink := "https://example.com/jobs/" ++ toString i
      jobId := "job_" ++ toString i
      source := "Fallback Data" }

/-! ## The paginated fetcher (searchJobs) -/

/-- Result of one outbound request: `err` is a thrown error (HTTP error,
network error or an error field in the body), `ok none` a response
without usable data, and `ok (some raws)` a response whose data (or
data.jobs) array holds the raw records. -/
inductive ReqResult where
  | err : ReqResult
  | ok : Option (List RawJob) → ReqResult
deriving DecidableEq

/-- Retry loop of `makeRequestWithRetry`: `api1 k` is the outcome of the
attempt with retryCount `k`; `remaining` counts the retries still
allowed.  The returned number counts the attempts actually issued. -/
def retryLoop (api1 : Nat → ReqResult) : Nat → Nat → Except Unit (Option (List RawJob)) × Nat
  | attempt, 0 =>
    match api1 attempt with
    | ReqResult.ok r => (Except.ok r, 1)
    | ReqResult.err => (Except.error (), 1)
  | attempt, rem + 1 =>
    match api1 attempt with
    | ReqResult.ok r => (Except.ok r, 1)
    | ReqResult.err =>
      let res := retryLoop api1 (attempt + 1) rem
      (res.1, res.2 + 1)

/-- Shallow embedding of `makeRequestWithRetry` for one page: the retry
loop starts at retryCount 0 with `maxRetries` retries allowed, so a page
costs at most `maxRetries + 1` requests before the error propagates. -/
def makeRequestWithRetry (api1 : Nat → ReqResult) (maxRetries : Nat) :
    Except Unit (Option (List RawJob)) × Nat :=
  retryLoop api1 0 maxRetries

/-- Per-page acceptance: each raw record is parsed and kept when the
location classifier places it in the target country, in order. -/
def acceptPage (tgt : String) (raws : List RawJob) : List ParsedJob :=
  raws.filterMap fun r =>
    match parseJobData (some r) with
    | some p =>
      if isLocationInCountry tgt p.location p.city p.state p.country then some p else none
    | none => none

/-- How the page loop of `searchJobs` ended: normally (page budget
exhausted, an empty page, or a response without data), with a failure of
the first page, or with a failure of a later page. -/
inductive LoopStatus where
  | normal : LoopStatus
  | firstFail : LoopStatus
  | laterFail : LoopStatus
deriving DecidableEq

/-- Outcome of the page loop: the termination status, the accepted jobs
accumulated so far, and the trace of issued requests (one page number
per attempt, in order). -/
structure LoopRes where
  status : LoopStatus
  acc : List ParsedJob
  trace : List Nat
deriving DecidableEq

/-- The page loop of `searchJobs`: `page` is the current page number and
`pagesLeft` the number of iterations the `for` loop still has.  Requests
go through the retry wrapper; an error on page 1 triggers the fallback
(status `firstFail`), an error on a later page stops pagination keeping
the accumulated jobs, a missing data field or an empty page stops
pagination normally, and a non-empty page appends its accepted jobs. -/
def searchLoop (cfg : Config) (api : Nat → Nat → ReqResult) (tgt : String) :
    Nat → Nat → List ParsedJob → LoopRes
  | _page, 0, acc => { status := LoopStatus.normal, acc := acc, trace := [] }
  | page, pagesLeft + 1, acc =>
    let rr := makeRequestWithRetry (api page) cfg.maxRetries
    let tr := List.replicate rr.2 page
    match rr.1 with
    | Except.error _ =>
      if page = 1 then { status := LoopStatus.firstFail, acc := acc, trace := tr }
      else { status := LoopStatus.laterFail, acc := acc, trace := tr }
    | Except.ok none => { status := LoopStatus.normal, acc := acc, trace := tr }
    | Except.ok (some raws) =>
      if raws = [] then { status := LoopStatus.normal, acc := acc, trace := tr }
      else
        let res := searchLoop cfg api tgt (page + 1) pagesLeft (acc ++ acceptPage tgt raws)
        { status := res.status, acc := res.acc, trace := tr ++ res.trace }

/-- Page budget: `params.numPages || 5`. -/
def npages (params : FetchParams) : Nat :=
  if params.numPages = 0 then 5 else params.numPages

/-- Target country of the filter: `params.country || 'in'`. -/
def targetIso (params : FetchParams) : String :=
  if params.country = "" then "in" else params.country

/-- The page loop as started by `searchJobs`: page 1, full page budget,
no accumulated jobs. -/
def searchLoopMain (cfg : Config) (api : Nat → Nat → ReqResult) (params : FetchParams) : LoopRes :=
  searchLoop cfg api (targetIso params) 1 (npages params) []

/-- Result of `searchJobs`: the returned jobs, the request trace and
whether the fallback generator produced the jobs. -/
structure SearchResult where
  jobs : List ParsedJob
  trace : List Nat
  usedFallback : Bool
deriving DecidableEq

/-- Shallow embedding of `searchJobs`: without an API key the fallback
data is returned at once; otherwise the page loop runs, the fallback is
returned when the first page failed or when no job survived the country
filter, and the accumulated jobs are returned otherwise.  The outer
try/catch of the original has no other reachable failure in the
embedding, its fallback path coincides with these. -/
def searchJobs (cfg : Config) (api : Nat → Nat → ReqResult) (rand : Nat → Nat)
    (params : FetchParams) : SearchResult :=
  if cfg.apiKey = "" then
    { jobs := generateFallbackJobs params rand, trace := [], usedFallback := true }
  else if (searchLoopMain cfg api params).status = LoopStatus.firstFail then
    { jobs := generateFallbackJobs params rand,
      trace := (searchLoopMain cfg api params).trace, usedFallback := true }
  else if (searchLoopMain cfg api params).acc = [] then
    { jobs := generateFallbackJobs params rand,
      trace := (searchLoopMain cfg api params).trace, usedFallback := true }
  else
    { jobs := (searchLoopMain cfg api params).acc,
      trace := (searchLoopMain cfg api params).trace, usedFallback := false }

/-- Models `filterJobsByCountry` of the service. -/
def filterJobsByCountry (jobs : List ParsedJob) (targetCountryIso : String) : List ParsedJob :=
  jobs.filter fun job =>
    isLocationInCountry targetCountryIso job.location job.city job.state job.country

/-! ## Persistence (saveJobsToDatabase of adminController.ts) -/

/-- A job as transformed by the orchestrator before saving. -/
structure TransformedJob where
  title : String
  company : String
  location : String
  description : String := ""
  applyUrl : String := ""
  salary : String := ""
  jobType : String := ""
  postedAt : String := ""
  source : String := ""
deriving DecidableEq

/-- A job document in the store. -/
structure StoredJob where
  jobId : Nat
  title : String
  companyId : Nat
  company : String
  location : String
  description : String := ""
  applyUrl : String := ""
  salary : String := ""
  jobType : String := ""
  source : String := ""
  sessionId : String := ""
  bucket : String := ""
  status : String := ""
deriving DecidableEq

/-- The document store: companies as (id, name) pairs plus jobs, with
fresh-id counters standing for the generated object ids. -/
structure Db where
  companies : List (Nat × String)
  nextCompanyId : Nat
  jobs : List StoredJob
  nextJobId : Nat
deriving DecidableEq

/-- An empty store. -/
def dbEmpty : Db := { companies := [], nextCompanyId := 1, jobs := [], nextJobId := 1 }

/-- Models `Company.findOne({name})` followed by `Company.create` when
absent: returns the company id and the (possibly extended) store. -/
def findOrCreateCompany (name : String) (db : Db) : Nat × Db :=
  match db.companies.find? (fun c => c.2 == name) with
  | some c => (c.1, db)
  | none =>
    (db.nextCompanyId,
     { db with
       companies := db.companies ++ [(db.nextCompanyId, name)]
       nextCompanyId := db.nextCompanyId + 1 })

/-- The company id a job will resolve to against a given store. -/
def resolveCid (j : TransformedJob) (db : Db) : Nat := (findOrCreateCompany j.company db).1

/-- The deduplication identity of `saveJobsToDatabase`: the
(title, companyId, location) tuple. -/
def jobMatches (title : String) (cid : Nat) (location : String) (sj : StoredJob) : Bool :=
  sj.title == title && sj.companyId == cid && sj.location == location

/-- A fresh job document as created by `Job.create`: the transformed
fields plus the resolved company, the session stamp and status
published. -/
def mkStoredJob (jd : TransformedJob) (cid : Nat) (bucket sid : String) (newId : Nat) : StoredJob :=
  { jobId := newId, title := jd.title, companyId := cid, company := jd.company,
    location := jd.location, description := jd.description, applyUrl := jd.applyUrl,
    salary := jd.salary, jobType := jd.jobType, source := jsOr jd.source "JSearch API",
    sessionId := sid, bucket := bucket, status := "published" }

/-- The update applied by `Job.findByIdAndUpdate` to an existing
document: the spread of the transformed job, the resolved company and
the new session stamp; the status field is not touched. -/
def applyJobUpdate (jd : TransformedJob) (cid : Nat) (bucket sid : String) (sj : StoredJob) : StoredJob :=
  { sj with
    title := jd.title
    companyId := cid
    company := jd.company
    location := jd.location
    description := jd.description
    applyUrl := jd.applyUrl
    salary := jd.salary
    jobType := jd.jobType
    source := jd.source
    sessionId := sid
    bucket := bucket }

/-- Saving one job: resolve the company, look the identity tuple up, and
either update the matching document in place or insert a fresh one.  The
returned flag is true for an insert. -/
def saveOneJob (jd : TransformedJob) (bucket sid : String) (db : Db) : Db × Bool :=
  let rc := findOrCreateCompany jd.company db
  let cid := rc.1
  let db1 := rc.2
  match db1.jobs.find? (jobMatches jd.title cid jd.location) with
  | some existing =>
    ({ db1 with jobs := db1.jobs.map fun sj =>
        if sj.jobId = existing.jobId then applyJobUpdate jd cid bucket sid sj else sj },
     false)
  | none =>
    ({ db1 with
        jobs := db1.jobs ++ [mkStoredJob jd cid bucket sid db1.nextJobId]
        nextJobId := db1.nextJobId + 1 },
     true)

/-- Result of `saveJobsToDatabase`. -/
structure SaveRes where
  db : Db
  newCount : Nat
  updatedCount : Nat
deriving DecidableEq

/-- Shallow embedding of `saveJobsToDatabase`: saves the list in order,
counting inserts and updates.  The per-job try/catch of the original has
no reachable failure in the embedding. -/
def saveJobsToDatabase : List TransformedJob → String → String → Db → SaveRes
  | [], _, _, db => { db := db, newCount := 0, updatedCount := 0 }
  | j :: rest, bucket, sid, db =>
    let step := saveOneJob j bucket sid db
    let r := saveJobsToDatabase rest bucket sid step.1
    if step.2 then { r with newCount := r.newCount + 1 }
    else { r with updatedCount := r.updatedCount + 1 }

/-! ## The ingestion orchestrator (runCrawlers background task) -/

/-- The transformation applied to each fetched job before saving
(transformedJobs in runCrawlers); requirements, responsibilities and the
meta payload carry no structure the claims touch. -/
def transformJob (job : ParsedJob) : TransformedJob :=
  { title := jsOr job.title "Untitled"
    company := jsOr job.company "Unknown Company"
    location := jsOr job.location "Remote"
    description := job.description
    applyUrl := job.externalLink
    salary := match job.maxSalary with
      | none => ""
      | some 0 => ""
      | some m =>
        (match job.minSalary with
         | none => ""
         | some 0 => ""
         | some n => toString n) ++ "-" ++ toString m ++ " " ++ jsOr job.salaryPeriod "YEARLY"
    jobType := jsOr job.jobType "Full-time"
    postedAt := job.postedDate
    source := jsOr job.source "JSearch API" }

/-- Session-level accumulator of the background task. -/
structure OrchRes where
  bucketsCompleted : List String
  bucketsFailed : List String
  status : String
  totalApiCalls : Nat
  totalJobsFound : Nat
  countryJobsFound : Nat
  newJobsAdded : Nat
  jobsUpdated : Nat
  db : Db
deriving DecidableEq

/-- The per-bucket loop of the background task: each bucket increments
the call counter, fetches (a rejected promise is an `error`), and on
success filters, transforms and saves; a bucket that threw is recorded
in bucketsFailed and the loop proceeds. -/
def runBuckets (fetch : String → Except String (List ParsedJob)) (filterOn : Bool)
    (iso sid : String) : List String → OrchRes → OrchRes
  | [], st => st
  | b :: rest, st =>
    let st1 := { st with totalApiCalls := st.totalApiCalls + 1 }
    match fetch b with
    | Except.error _ =>
      runBuckets fetch filterOn iso sid rest
        { st1 with bucketsFailed := st1.bucketsFailed ++ [b] }
    | Except.ok jobs =>
      if jobs = [] then
        runBuckets fetch filterOn iso sid rest
          { st1 with bucketsCompleted := st1.bucketsCompleted ++ [b] }
      else
        let st2 := { st1 with totalJobsFound := st1.totalJobsFound + jobs.length }
        let filteredJobs := if filterOn then filterJobsByCountry jobs iso else jobs
        let st3 :=
          if filterOn then { st2 with countryJobsFound := st2.countryJobsFound + filteredJobs.length }
          else st2
        let res := saveJobsToDatabase (filteredJobs.map transformJob) b sid st3.db
        runBuckets fetch filterOn iso sid rest
          { st3 with
            db := res.db
            newJobsAdded := st3.newJobsAdded + res.newCount
            jobsUpdated := st3.jobsUpdated + res.updatedCount
            bucketsCompleted := st3.bucketsCompleted ++ [b] }

/-- Shallow embedding of the detached background task of `runCrawlers`,
entered once the session was created: the buckets run sequentially and
the final status is completed exactly when no bucket failed, partial
otherwise (the failed status belongs to an exception outside the
per-bucket try, which the embedding has no reachable source of). -/
def runCrawlersBackground (fetch : String → Except String (List ParsedJob)) (filterOn : Bool)
    (iso sid : String) (buckets : List String) (db0 : Db) : OrchRes :=
  let st := runBuckets fetch filterOn iso sid buckets
    { bucketsCompleted := [], bucketsFailed := [], status := "in_progress",
      totalApiCalls := 0, totalJobsFound := 0, countryJobsFound := 0,
      newJobsAdded := 0, jobsUpdated := 0, db := db0 }
  { st with status := if st.bucketsFailed = [] then "completed" else "partial" }

/-! ## Concrete records used by witnesses -/

/-- A raw record whose location signals Germany, used to exercise the
location invariant. -/
def c7raw : RawJob := { job_location := "Berlin, Germany", employer_name := "Acme GmbH" }

/-- The parsed record of `c7raw`. -/
def c7parsed : ParsedJob := (parseJobData (some c7raw)).getD emptyParsedJob

/-- A raw record with a real apply link, used to exercise the source
label. -/
def c8raw : RawJob := { job_apply_link := "https://jobs.initech.io/123", employer_name := "Initech" }

/-- The parsed record of `c8raw`. -/
def c8parsed : ParsedJob := (parseJobData (some c8raw)).getD emptyParsedJob

/-- Configuration with an API key, used by the concrete fetcher
scenarios. -/
def mockCfg : Config := { apiKey := "live-key", maxRetries := 3 }

/-- Configuration without an API key. -/
def cfgNoKey : Config := { apiKey := "", maxRetries := 3 }

/-- A fixed randomness oracle. -/
def zeroRand : Nat → Nat := fun _ => 0

/-- Fetch parameters targeting the US. -/
def c3params : FetchParams := { query := "engineer", country := "us", numPages := 5, pageSize := 50 }

/-- A raw job the US filter rejects: its explicit country is Germany. -/
def c3rejectedRaw : RawJob :=
  { job_title := "Engineer", employer_name := "Acme GmbH",
    job_city := "Berlin", job_country := "Germany" }

/-- API behaviour for the C3 counterexample: page 1 succeeds with one
job the country filter rejects, every later page fails on every
attempt. -/
def c3api : Nat → Nat → ReqResult := fun page _attempt =>
  if page = 1 then ReqResult.ok (some [c3rejectedRaw]) else ReqResult.err

/-- API behaviour that fails on every attempt of every page. -/
def c3failApi : Nat → Nat → ReqResult := fun _page _attempt => ReqResult.err

/-- Conclusion of the amended C3 claim: a first-page failure after
exhausting retries yields the generator output, all of it tagged with
the fallback label; a later-page failure stops pagination and returns
the accumulated accepted jobs when there are any, and the generator
output when none were accepted. -/
def C3Concl (cfg : Config) (api : Nat → Nat → ReqResult) (rand : Nat → Nat)
    (params : FetchParams) : Prop :=
  ((makeRequestWithRetry (api 1) cfg.maxRetries).1 = Except.error () →
    (searchJobs cfg api rand params).jobs = generateFallbackJobs params rand
    ∧ ∀ j ∈ (searchJobs cfg api rand params).jobs, j.source = "Fallback Data")
  ∧ ((searchLoopMain cfg api params).status = LoopStatus.laterFail →
      (searchLoopMain cfg api params).acc ≠ [] →
      (searchJobs cfg api rand params).jobs = (searchLoopMain cfg api params).acc)
  ∧ ((searchLoopMain cfg api params).status = LoopStatus.laterFail →
      (searchLoopMain cfg api params).acc = [] →
      (searchJobs cfg api rand params).jobs = generateFallbackJobs params rand)

/-- First raw job of the C6 pagination scenario. -/
def c6raw1 : RawJob :=
  { job_title := "Backend Engineer", employer_name := "Acme",
    job_city := "Bangalore", job_country := "India" }

/-- Second raw job of the C6 pagination scenario. -/
def c6raw2 : RawJob :=
  { job_title := "Data Engineer", employer_name := "Initech",
    job_city := "Pune", job_country := "India" }

/-- API behaviour for C6: two non-empty pages, then an empty page. -/
def c6api : Nat → Nat → ReqResult := fun page _attempt =>
  if page = 1 then ReqResult.ok (some [c6raw1])
  else if page = 2 then ReqResult.ok (some [c6raw2])
  else ReqResult.ok (some [])

/-- Fetch parameters for the C6 scenario: five pages requested. -/
def c6params : FetchParams := { query := "developer", country := "in", numPages := 5, pageSize := 50 }

/-- Concrete conclusion of C6: with two non-empty pages, an empty third
page and a budget of five, exactly the three requests 1, 2, 3 are
issued and the returned jobs are those accepted from the first two
pages. -/
def C6Concrete : Prop :=
  (searchJobs mockCfg c6api zeroRand c6params).trace = [1, 2, 3] ∧
  (searchJobs mockCfg c6api zeroRand c6params).jobs
    = acceptPage "in" [c6raw1] ++ acceptPage "in" [c6raw2] ∧
  ((searchJobs mockCfg c6api zeroRand c6params).jobs).length = 2

/-- Conclusion of C10: the bucket-level search never returns an empty
list, the generator output has between 20 and 50 jobs, and each empty
path (missing key, first-page failure, no survivor of the filter)
returns exactly the generator output. -/
def C10Concl (cfg : Config) (api : Nat → Nat → ReqResult) (rand : Nat → Nat)
    (params : FetchParams) : Prop :=
  (searchJobs cfg api rand params).jobs ≠ []
  ∧ 20 ≤ (generateFallbackJobs params rand).length
  ∧ (generateFallbackJobs params rand).length ≤ 50
  ∧ (cfg.apiKey = "" →
      (searchJobs cfg api rand params).jobs = generateFallbackJobs params rand)
  ∧ ((searchLoopMain cfg api params).status = LoopStatus.firstFail →
      (searchJobs cfg api rand params).jobs = generateFallbackJobs params rand)
  ∧ (cfg.apiKey ≠ "" → (searchLoopMain cfg api params).acc = [] →
      (searchJobs cfg api rand params).jobs = generateFallbackJobs params rand)

/-- Whether the fetch of a bucket rejects (throws). -/
def fetchFails (fetch : String → Except String (List ParsedJob)) (b : String) : Bool :=
  match fetch b with
  | Except.error _ => true
  | Except.ok _ => false

/-- Conclusion of C4 for a store, a job and two save rounds: the first
round inserts exactly one record (counted as new), the second updates it
in place (counted as updated), exactly one record with the identity
tuple (title, companyId, location) exists afterwards, and that record
still has status published and carries the second session stamp. -/
def C4Concl (db : Db) (j : TransformedJob) (b1 b2 s1 s2 : String) : Prop :=
  (saveJobsToDatabase [j] b1 s1 db).newCount = 1 ∧
  (saveJobsToDatabase [j] b1 s1 db).updatedCount = 0 ∧
  (saveJobsToDatabase [j] b2 s2 (saveJobsToDatabase [j] b1 s1 db).db).newCount = 0 ∧
  (saveJobsToDatabase [j] b2 s2 (saveJobsToDatabase [j] b1 s1 db).db).updatedCount = 1 ∧
  (saveJobsToDatabase [j] b2 s2 (saveJobsToDatabase [j] b1 s1 db).db).db.jobs.countP
      (jobMatches j.title (resolveCid j db) j.location) = 1 ∧
  ∃ sj, (saveJobsToDatabase [j] b2 s2 (saveJobsToDatabase [j] b1 s1 db).db).db.jobs.find?
            (jobMatches j.title (resolveCid j db) j.location) = some sj
      ∧ sj.status = "published" ∧ sj.sessionId = s2

/-- A transformed job used by the C4 witness. -/
def c4job : TransformedJob :=
  { title := "Backend Engineer", company := "Initech", location := "Pune, India",
    jobType := "Full-time", source := "JSearch API" }

/-- A parsed job the India filter keeps, used by the C5 scenario. -/
def c5job : ParsedJob :=
  { title := "Engineer", company := "Acme", location := "Pune, India",
    city := "Pune", country := "India", source := "JSearch API" }

/-- Per-bucket fetch behaviour of the C5 scenario: bucket2 throws, the
other buckets deliver one job each. -/
def c5fetch : String → Except String (List ParsedJob) := fun b =>
  if b = "bucket2" then Except.error "fetch failed" else Except.ok [c5job]

/-- Concrete conclusion of C5: with three buckets of which only bucket2
throws during fetch, the final session is partial, the completed buckets
are bucket1 and bucket3, and the failed bucket is bucket2. -/
def C5Concrete : Prop :=
  (runCrawlersBackground c5fetch true "in" "session-1" ["bucket1", "bucket2", "bucket3"] dbEmpty).status
    = "partial" ∧
  (runCrawlersBackground c5fetch true "in" "session-1" ["bucket1", "bucket2", "bucket3"] dbEmpty).bucketsCompleted
    = ["bucket1", "bucket3"] ∧
  (runCrawlersBackground c5fetch true "in" "session-1" ["bucket1", "bucket2", "bucket3"] dbEmpty).bucketsFailed
    = ["bucket2"]

/-! # Theorems for the claims -/

/-- C1: the code returns true, not false, for the location
"Berlin, Germany" with target country "us", although the only country
signal of that string is the keyword Germany: the state-code loop finds
the US codes "in" and "ma" as raw substrings of "berlin, germany". -/
theorem c1_counterexample :
    isLocationInCountry "us" "Berlin, Germany" "" "" "" = true := by decide

/-- C1 (amended): isLocationInCountry with target "us" and a bare
location string returns true for "New York, NY, USA"; it returns false
for a location string only when no US state code occurs as a raw
substring of its lowercased form, no US city name matches with the word
pattern, and no US country keyword check fires — a location mentioning
only a non-US country can still be accepted through an accidental
state-code substring, as "Berlin, Germany" is. -/
theorem c1_us_filter_amended (loc : String)
    (h1 : stateCodeHit "us" (strToLower loc) "" = false)
    (h2 : cityHit "us" (strToLower loc) "" = false)
    (h3 : countryKeywordHit "us" (strToLower loc) "" = false) :
    isLocationInCountry "us" loc "" "" "" = false ∧
    isLocationInCountry "us" "New York, NY, USA" "" "" "" = true := by
  refine ⟨?_, by decide⟩
  by_cases hl : loc = ""
  · subst hl; decide
  · have hfull : strToLower (joinWith " " ((["", "", ""] : List String).filter (fun s => s != ""))) = "" := by
      decide
    simp only [isLocationInCountry, hfull]
    simp [hl, h1, h2, h3]

/-- C1 witness: the hypotheses of the amended claim hold for the
location "Giza, Egypt", whose only country signal is the non-US keyword
Egypt, and the classifier indeed rejects it while accepting
"New York, NY, USA". -/
theorem c1_us_filter_amended_witness :
    (stateCodeHit "us" (strToLower "Giza, Egypt") "" = false
     ∧ cityHit "us" (strToLower "Giza, Egypt") "" = false
     ∧ countryKeywordHit "us" (strToLower "Giza, Egypt") "" = false)
    ∧ (isLocationInCountry "us" "Giza, Egypt" "" "" "" = false
       ∧ isLocationInCountry "us" "New York, NY, USA" "" "" "" = true) :=
  ⟨⟨by decide, by decide, by decide⟩,
   c1_us_filter_amended "Giza, Egypt" (by decide) (by decide) (by decide)⟩

/-- C2: a non-empty explicit country field that does not match the
target country variants makes the classifier return false regardless of
the location, city and state arguments: the explicit-country branch
returns the comparison outcome and no later heuristic runs. -/
theorem c2_explicit_country_short_circuit (targetCountryIso location city state country : String)
    (hc : country ≠ "")
    (hm : countryMatchesTarget targetCountryIso (strToLower targetCountryIso)
            (strTrim (strToLower country)) = false) :
    isLocationInCountry targetCountryIso location city state country = false := by
  simp only [isLocationInCountry]
  rw [if_neg fun h => hc h.2.2.2, if_pos hc]
  exact hm

/-- C2 witness: the explicit country Germany makes the classifier reject
even a location reading "New York, NY" when the target is "us". -/
theorem c2_explicit_country_short_circuit_witness :
    ("Germany" ≠ "" ∧
     countryMatchesTarget "us" (strToLower "us") (strTrim (strToLower "Germany")) = false)
    ∧ isLocationInCountry "us" "New York, NY" "" "" "Germany" = false :=
  ⟨⟨by decide, by decide⟩,
   c2_explicit_country_short_circuit "us" "New York, NY" "" "" "Germany" (by decide) (by decide)⟩

/-- Every string kept by a filter on being non-empty is non-empty. -/
theorem filter_strings_ne_empty (l : List String) :
    ∀ x ∈ l.filter (fun s => s != ""), x ≠ "" := by
  intro x hx
  have h := (List.mem_filter.mp hx).2
  simpa using h

/-- Joining one or more non-empty strings with a comma separator yields
a non-empty string. -/
theorem joinWith_comma_ne_empty :
    ∀ l : List String, l ≠ [] → (∀ x ∈ l, x ≠ "") → joinWith ", " l ≠ ""
  | [], h, _ => absurd rfl h
  | [x], _, hall => by simpa using hall x (by simp)
  | x :: y :: ys, _, hall => by
    intro h
    have hlen := congrArg String.length h
    rw [joinWith] at hlen
    simp [String.length_append] at hlen
    exact absurd hlen.1.2 (by decide)

/-- The Remote-or-join expression of the normalizer never yields the
empty string when the joined parts are non-empty strings. -/
theorem remoteJoin_ne_empty (l : List String) (hall : ∀ x ∈ l, x ≠ "") :
    (if l = [] then "Remote" else joinWith ", " l) ≠ "" := by
  split
  · decide
  · exact joinWith_comma_ne_empty l (by assumption) hall

/-- C7: for every raw record the normalizer accepts, the location field
of the canonical record is non-empty, and it equals the non-empty parts
among city, state and country joined by a comma and a space, with the
literal Remote when all three parts are absent. -/
theorem c7_location_invariant (jd : RawJob) (p : ParsedJob)
    (h : parseJobData (some jd) = some p) :
    p.location ≠ "" ∧
    p.location = (if ([p.city, p.state, p.country].filter (fun s => s != "")) = []
                  then "Remote"
                  else joinWith ", " ([p.city, p.state, p.country].filter (fun s => s != ""))) := by
  simp only [parseJobData, Option.some.injEq] at h
  subst h
  exact ⟨remoteJoin_ne_empty _ (filter_strings_ne_empty _), rfl⟩

/-- C7 witness: the invariant evaluated on the record parsed from a
concrete raw job with the combined location "Berlin, Germany". -/
theorem c7_location_invariant_witness :
    parseJobData (some c7raw) = some c7parsed ∧
    (c7parsed.location ≠ "" ∧
     c7parsed.location = (if ([c7parsed.city, c7parsed.state, c7parsed.country].filter (fun s => s != "")) = []
                          then "Remote"
                          else joinWith ", " ([c7parsed.city, c7parsed.state, c7parsed.country].filter (fun s => s != "")))) :=
  ⟨by decide, c7_location_invariant c7raw c7parsed (by decide)⟩

/-- Helper for C8: the source expression equals the API label exactly
when the link is non-empty and free of the placeholder domain, and it is
one of the two labels. -/
theorem sourceLabel_cases (link : String) :
    ((if link ≠ "" ∧ strIncludes link "example.com" = false
      then "JSearch API" else "Fallback Data") = "JSearch API"
     ↔ (link ≠ "" ∧ strIncludes link "example.com" = false))
    ∧ ((if link ≠ "" ∧ strIncludes link "example.com" = false
        then "JSearch API" else "Fallback Data") = "JSearch API"
       ∨ (if link ≠ "" ∧ strIncludes link "example.com" = false
          then "JSearch API" else "Fallback Data") = "Fallback Data") := by
  by_cases hc : link ≠ "" ∧ strIncludes link "example.com" = false
  · rw [if_pos hc]
    exact ⟨⟨fun _ => hc, fun _ => rfl⟩, Or.inl rfl⟩
  · rw [if_neg hc]
    exact ⟨⟨fun hs => absurd hs (by decide), fun hcc => absurd hcc hc⟩, Or.inr rfl⟩

/-- C8: the source label of a normalized job is the API label exactly
when the extracted apply URL is non-empty and does not contain the
placeholder domain example.com, and in every other case it is the
fallback label. -/
theorem c8_source_label (jd : RawJob) (p : ParsedJob)
    (h : parseJobData (some jd) = some p) :
    (p.source = "JSearch API"
     ↔ (p.externalLink ≠ "" ∧ strIncludes p.externalLink "example.com" = false))
    ∧ (p.source = "JSearch API" ∨ p.source = "Fallback Data") := by
  simp only [parseJobData, Option.some.injEq] at h
  subst h
  exact sourceLabel_cases _

/-- C8 witness: the label conclusion evaluated on the record parsed from
a raw job carrying a genuine apply link. -/
theorem c8_source_label_witness :
    parseJobData (some c8raw) = some c8parsed ∧
    ((c8parsed.source = "JSearch API"
      ↔ (c8parsed.externalLink ≠ "" ∧ strIncludes c8parsed.externalLink "example.com" = false))
     ∧ (c8parsed.source = "JSearch API" ∨ c8parsed.source = "Fallback Data")) :=
  ⟨by decide, c8_source_label c8raw c8parsed (by decide)⟩

/-- C9: the normalizer returns none only for a null input: a null input
parses to none, and every well-typed raw record parses to some canonical
record, since in the embedding the catch-all error path of the original
is unreachable. -/
theorem c9_parse_total (jd : RawJob) :
    parseJobData none = none ∧ ∃ p, parseJobData (some jd) = some p :=
  ⟨rfl, ⟨_, rfl⟩⟩

/-- The generator always produces `rand 0 % 30 + 20` jobs. -/
theorem generateFallbackJobs_length (params : FetchParams) (rand : Nat → Nat) :
    (generateFallbackJobs params rand).length = rand 0 % 30 + 20 := by
  simp [generateFallbackJobs]

/-- Every generated fallback job carries the fallback source label. -/
theorem generateFallbackJobs_source (params : FetchParams) (rand : Nat → Nat) :
    ∀ j ∈ generateFallbackJobs params rand, j.source = "Fallback Data" := by
  intro j hj
  simp only [generateFallbackJobs, List.mem_map] at hj
  obtain ⟨i, _, rfl⟩ := hj
  rfl

/-- The generator output is never empty. -/
theorem generateFallbackJobs_ne_nil (params : FetchParams) (rand : Nat → Nat) :
    generateFallbackJobs params rand ≠ [] := by
  intro h
  have hlen := congrArg List.length h
  rw [generateFallbackJobs_length] at hlen
  simp at hlen

/-- The page budget is always positive: `numPages || 5`. -/
theorem npages_pos (params : FetchParams) : npages params ≠ 0 := by
  unfold npages
  split
  · decide
  · assumption

/-- A failing first request makes the page loop report a first-page
failure with no accepted jobs and the retry attempts of page 1 as its
whole trace. -/
theorem searchLoop_firstFail (cfg : Config) (api : Nat → Nat → ReqResult) (tgt : String)
    (pl : Nat) (h : (makeRequestWithRetry (api 1) cfg.maxRetries).1 = Except.error ()) :
    searchLoop cfg api tgt 1 (pl + 1) [] =
      { status := LoopStatus.firstFail, acc := [],
        trace := List.replicate (makeRequestWithRetry (api 1) cfg.maxRetries).2 1 } := by
  simp only [searchLoop]
  rw [h]
  simp

/-- C3 (amended): searchJobs never surfaces a page failure.  A failed
first page yields exactly the generator output, each job tagged with the
fallback label; a failed later page stops pagination and yields the
accumulated accepted jobs when at least one was accepted, and the
generator output instead when none were. -/
theorem c3_fallback_amended (cfg : Config) (api : Nat → Nat → ReqResult) (rand : Nat → Nat)
    (params : FetchParams) (hkey : cfg.apiKey ≠ "") : C3Concl cfg api rand params := by
  obtain ⟨pl, hpl⟩ : ∃ pl, npages params = pl + 1 :=
    ⟨npages params - 1, by have := npages_pos params; omega⟩
  refine ⟨?_, ?_, ?_⟩
  · intro herr
    have hloop : searchLoopMain cfg api params =
        { status := LoopStatus.firstFail, acc := [],
          trace := List.replicate (makeRequestWithRetry (api 1) cfg.maxRetries).2 1 } := by
      unfold searchLoopMain
      rw [hpl]
      exact searchLoop_firstFail cfg api (targetIso params) pl herr
    have hjobs : (searchJobs cfg api rand params).jobs = generateFallbackJobs params rand := by
      unfold searchJobs
      rw [if_neg hkey, if_pos (by rw [hloop])]
    refine ⟨hjobs, ?_⟩
    intro j hj
    rw [hjobs] at hj
    exact generateFallbackJobs_source params rand j hj
  · intro hstat hacc
    unfold searchJobs
    rw [if_neg hkey, if_neg (by rw [hstat]; decide), if_neg hacc]
  · intro hstat hacc
    unfold searchJobs
    rw [if_neg hkey, if_neg (by rw [hstat]; decide), if_pos hacc]

/-- C3 witness: the amended claim instantiated with an API that fails on
every attempt, so the first conjunct fires concretely. -/
theorem c3_fallback_amended_witness :
    mockCfg.apiKey ≠ "" ∧ C3Concl mockCfg c3failApi zeroRand c3params :=
  ⟨by decide, c3_fallback_amended mockCfg c3failApi zeroRand c3params (by decide)⟩

/-- C3 counterexample: with page 1 delivering only a job the country
filter rejects and page 2 failing after retries, the loop stops on a
later-page failure with an empty accumulator, yet searchJobs returns a
non-empty list (the generator output) instead of the accumulated
accepted jobs. -/
theorem c3_counterexample :
    (searchLoopMain mockCfg c3api c3params).status = LoopStatus.laterFail ∧
    (searchLoopMain mockCfg c3api c3params).acc = [] ∧
    (searchJobs mockCfg c3api zeroRand c3params).jobs ≠ [] :=
  ⟨by decide, by decide, by decide⟩

/-- Once the retry wrapper reports an empty page at page number q, the
page loop never records a request for a page beyond q: pages are visited
in order and an empty page ends the loop. -/
theorem searchLoop_trace_le (cfg : Config) (api : Nat → Nat → ReqResult) (tgt : String) (q : Nat)
    (hq : (makeRequestWithRetry (api q) cfg.maxRetries).1 = Except.ok (some [])) :
    ∀ pagesLeft page acc, page ≤ q →
      ∀ p ∈ (searchLoop cfg api tgt page pagesLeft acc).trace, p ≤ q := by
  intro pagesLeft
  induction pagesLeft with
  | zero =>
    intro page acc _ p hp
    simp [searchLoop] at hp
  | succ pl ih =>
    intro page acc hle p hp
    simp only [searchLoop] at hp
    split at hp
    · split at hp
      · exact (List.eq_of_mem_replicate hp) ▸ hle
      · exact (List.eq_of_mem_replicate hp) ▸ hle
    · exact (List.eq_of_mem_replicate hp) ▸ hle
    · rename_i raws heq
      split at hp
      · exact (List.eq_of_mem_replicate hp) ▸ hle
      · rename_i hraws
        rw [List.mem_append] at hp
        rcases hp with hp | hp
        · exact (List.eq_of_mem_replicate hp) ▸ hle
        · have hpq : page ≠ q := by
            intro hpq
            rw [hpq, hq] at heq
            injection heq with heq
            injection heq with heq
            exact hraws heq.symm
          exact ih (page + 1) _ (by omega) p hp

/-- C6: an empty page ends pagination — for every configuration,
behaviour and page budget, no request is issued for a page after one
whose (retried) response is the empty array; concretely, two non-empty
pages followed by an empty one under a budget of five issue exactly the
three requests 1, 2, 3 and accept only jobs of the first two pages. -/
theorem c6_empty_page_stops (cfg : Config) (api : Nat → Nat → ReqResult) (rand : Nat → Nat)
    (params : FetchParams) (q : Nat)
    (hq : (makeRequestWithRetry (api q) cfg.maxRetries).1 = Except.ok (some [])) (h1 : 1 ≤ q) :
    (∀ p ∈ (searchJobs cfg api rand params).trace, p ≤ q) ∧ C6Concrete := by
  constructor
  · intro p hp
    by_cases hkey : cfg.apiKey = ""
    · unfold searchJobs at hp
      rw [if_pos hkey] at hp
      simp at hp
    · have hmem : p ∈ (searchLoopMain cfg api params).trace := by
        unfold searchJobs at hp
        rw [if_neg hkey] at hp
        split at hp
        · exact hp
        · split at hp
          · exact hp
          · exact hp
      exact searchLoop_trace_le cfg api (targetIso params) q hq (npages params) 1 [] h1 p hmem
  · exact ⟨by decide, by decide, by decide⟩

/-- C6 witness: the empty page of the concrete scenario is page 3, and
the instantiated theorem bounds every request by 3 while the concrete
conjunct pins the trace to [1, 2, 3]. -/
theorem c6_empty_page_stops_witness :
    ((makeRequestWithRetry (c6api 3) mockCfg.maxRetries).1 = Except.ok (some []) ∧ 1 ≤ 3) ∧
    ((∀ p ∈ (searchJobs mockCfg c6api zeroRand c6params).trace, p ≤ 3) ∧ C6Concrete) :=
  ⟨⟨rfl, by decide⟩, c6_empty_page_stops mockCfg c6api zeroRand c6params 3 rfl (by decide)⟩

/-- C10: the bucket-level search never returns an empty list; every path
without surviving API jobs (missing key, failed first page, or no job
surviving the country filter) returns the generator output, which always
holds between 20 and 50 synthetic jobs. -/
theorem c10_never_empty (cfg : Config) (api : Nat → Nat → ReqResult) (rand : Nat → Nat)
    (params : FetchParams) : C10Concl cfg api rand params := by
  have hmod : rand 0 % 30 < 30 := Nat.mod_lt _ (by decide)
  have hlen := generateFallbackJobs_length params rand
  have hne := generateFallbackJobs_ne_nil params rand
  refine ⟨?_, by omega, by omega, ?_, ?_, ?_⟩
  · unfold searchJobs
    by_cases hkey : cfg.apiKey = ""
    · rw [if_pos hkey]; exact hne
    · rw [if_neg hkey]
      by_cases hf : (searchLoopMain cfg api params).status = LoopStatus.firstFail
      · rw [if_pos hf]; exact hne
      · rw [if_neg hf]
        by_cases ha : (searchLoopMain cfg api params).acc = []
        · rw [if_pos ha]; exact hne
        · rw [if_neg ha]; exact ha
  · intro hkey
    unfold searchJobs
    rw [if_pos hkey]
  · intro hf
    unfold searchJobs
    by_cases hkey : cfg.apiKey = ""
    · rw [if_pos hkey]
    · rw [if_neg hkey, if_pos hf]
  · intro hkey ha
    unfold searchJobs
    rw [if_neg hkey]
    by_cases hf : (searchLoopMain cfg api params).status = LoopStatus.firstFail
    · rw [if_pos hf]
    · rw [if_neg hf, if_pos ha]

/-- C10 witness: the conclusion instantiated with a missing API key, the
path on which the search returns the generator output directly. -/
theorem c10_never_empty_witness : C10Concl cfgNoKey c3failApi zeroRand c3params :=
  c10_never_empty cfgNoKey c3failApi zeroRand c3params

/-! ## List lemmas for the persistence proofs -/

/-- When nothing in the left list satisfies the predicate, searching the
concatenation searches the right list. -/
theorem find?_append_of_none {α : Type} (p : α → Bool) :
    ∀ l1 l2 : List α, l1.find? p = none → (l1 ++ l2).find? p = l2.find? p
  | [], _, _ => rfl
  | a :: l1, l2, h => by
    cases hp : p a with
    | true =>
      rw [List.find?_cons_of_pos _ hp] at h
      cases h
    | false =>
      rw [List.find?_cons_of_neg _ (by simp [hp])] at h
      rw [List.cons_append, List.find?_cons_of_neg _ (by simp [hp])]
      exact find?_append_of_none p l1 l2 h

/-- A search over a list none of whose members satisfies the predicate
finds nothing. -/
theorem find?_eq_none_of {α : Type} (p : α → Bool) :
    ∀ l : List α, (∀ x ∈ l, p x = false) → l.find? p = none
  | [], _ => rfl
  | a :: l, h => by
    rw [List.find?_cons_of_neg _ (by simp [h a (by simp)])]
    exact find?_eq_none_of p l fun x hx => h x (by simp [hx])

/-- A map that fixes every member of a list fixes the list. -/
theorem map_id_of_mem {α : Type} (f : α → α) :
    ∀ l : List α, (∀ x ∈ l, f x = x) → l.map f = l
  | [], _ => rfl
  | a :: l, h => by
    rw [List.map_cons, h a (by simp), map_id_of_mem f l fun x hx => h x (by simp [hx])]

/-- A list none of whose members satisfies the predicate counts zero. -/
theorem countP_eq_zero_of {α : Type} (p : α → Bool) :
    ∀ l : List α, (∀ x ∈ l, p x = false) → l.countP p = 0
  | [], _ => rfl
  | a :: l, h => by
    rw [List.countP_cons, h a (by simp), countP_eq_zero_of p l fun x hx => h x (by simp [hx])]
    simp

/-! ## Persistence lemmas -/

/-- Resolving a company never touches the job collection. -/
theorem foc_jobs (name : String) (db : Db) :
    (findOrCreateCompany name db).2.jobs = db.jobs := by
  unfold findOrCreateCompany
  cases h : db.companies.find? (fun c => c.2 == name)
  · rfl
  · rfl

/-- Resolving a company never touches the job id counter. -/
theorem foc_nextJobId (name : String) (db : Db) :
    (findOrCreateCompany name db).2.nextJobId = db.nextJobId := by
  unfold findOrCreateCompany
  cases h : db.companies.find? (fun c => c.2 == name)
  · rfl
  · rfl

/-- After resolving a company, a lookup by its name finds exactly the
returned id paired with that name. -/
theorem foc_find (name : String) (db : Db) :
    (findOrCreateCompany name db).2.companies.find? (fun c => c.2 == name)
      = some ((findOrCreateCompany name db).1, name) := by
  unfold findOrCreateCompany
  cases h : db.companies.find? (fun c => c.2 == name) with
  | none =>
    show (db.companies ++ [(db.nextCompanyId, name)]).find? (fun c => c.2 == name)
        = some (db.nextCompanyId, name)
    rw [find?_append_of_none _ _ _ h, List.find?_cons_of_pos _ (by simp)]
  | some c =>
    obtain ⟨cid, cname⟩ := c
    have hc : cname = name := by simpa using List.find?_some h
    subst hc
    exact h

/-- A store whose company lookup already finds (cid, name) resolves the
company to cid without changing the store. -/
theorem foc_stable (name : String) (db' : Db) (cid : Nat)
    (hfind : db'.companies.find? (fun c => c.2 == name) = some (cid, name)) :
    findOrCreateCompany name db' = (cid, db') := by
  unfold findOrCreateCompany
  rw [hfind]

/-- Characterization of `saveOneJob` when no record matches the identity
tuple: the fresh document is appended and the insert flag is set. -/
theorem saveOneJob_insert (jd : TransformedJob) (bucket sid : String) (db : Db)
    (h : (findOrCreateCompany jd.company db).2.jobs.find?
          (jobMatches jd.title (findOrCreateCompany jd.company db).1 jd.location) = none) :
    saveOneJob jd bucket sid db =
      ({ (findOrCreateCompany jd.company db).2 with
          jobs := (findOrCreateCompany jd.company db).2.jobs
            ++ [mkStoredJob jd (findOrCreateCompany jd.company db).1 bucket sid
                  (findOrCreateCompany jd.company db).2.nextJobId]
          nextJobId := (findOrCreateCompany jd.company db).2.nextJobId + 1 },
       true) := by
  simp only [saveOneJob]
  rw [h]

/-- Characterization of `saveOneJob` when a record matches the identity
tuple: that document is updated in place and the insert flag is
cleared. -/
theorem saveOneJob_update (jd : TransformedJob) (bucket sid : String) (db : Db) (ex : StoredJob)
    (h : (findOrCreateCompany jd.company db).2.jobs.find?
          (jobMatches jd.title (findOrCreateCompany jd.company db).1 jd.location) = some ex) :
    saveOneJob jd bucket sid db =
      ({ (findOrCreateCompany jd.company db).2 with
          jobs := (findOrCreateCompany jd.company db).2.jobs.map fun sj =>
            if sj.jobId = ex.jobId
            then applyJobUpdate jd (findOrCreateCompany jd.company db).1 bucket sid sj
            else sj },
       false) := by
  simp only [saveOneJob]
  rw [h]

/-- Saving a one-element list counts the single insert or update. -/
theorem saveJobs_singleton (jd : TransformedJob) (bucket sid : String) (db : Db) :
    saveJobsToDatabase [jd] bucket sid db =
      (if (saveOneJob jd bucket sid db).2
       then { db := (saveOneJob jd bucket sid db).1, newCount := 1, updatedCount := 0 }
       else { db := (saveOneJob jd bucket sid db).1, newCount := 0, updatedCount := 1 }) := by
  simp only [saveJobsToDatabase]

/-- C4: saving the same job twice is an insert followed by an in-place
update — starting from a store with no record of the identity tuple
(title, resolved company, location) and fresh job ids, the first save
adds one record (new counter), the second updates it (updated counter),
exactly one record with that identity exists at the end, and it keeps
status published while carrying the session stamp of the second save. -/
theorem c4_save_dedup (db : Db) (j : TransformedJob) (b1 b2 s1 s2 : String)
    (hid : ∀ sj ∈ db.jobs, sj.jobId < db.nextJobId)
    (hnew : ∀ sj ∈ db.jobs, jobMatches j.title (resolveCid j db) j.location sj = false) :
    C4Concl db j b1 b2 s1 s2 := by
  have hjobs1 : (findOrCreateCompany j.company db).2.jobs = db.jobs := foc_jobs _ _
  have hnext1 : (findOrCreateCompany j.company db).2.nextJobId = db.nextJobId := foc_nextJobId _ _
  have hfindnone : (findOrCreateCompany j.company db).2.jobs.find?
      (jobMatches j.title (findOrCreateCompany j.company db).1 j.location) = none := by
    rw [hjobs1]
    exact find?_eq_none_of _ _ hnew
  have hsave1 := saveOneJob_insert j b1 s1 db hfindnone
  -- the inserted record
  have hmatch_new :
      jobMatches j.title (resolveCid j db) j.location
        (mkStoredJob j (findOrCreateCompany j.company db).1 b1 s1
          (findOrCreateCompany j.company db).2.nextJobId) = true := by
    simp [jobMatches, mkStoredJob, resolveCid]
  have hr1 : saveJobsToDatabase [j] b1 s1 db =
      { db := { (findOrCreateCompany j.company db).2 with
                jobs := (findOrCreateCompany j.company db).2.jobs
                  ++ [mkStoredJob j (findOrCreateCompany j.company db).1 b1 s1
                        (findOrCreateCompany j.company db).2.nextJobId]
                nextJobId := (findOrCreateCompany j.company db).2.nextJobId + 1 },
        newCount := 1, updatedCount := 0 } := by
    rw [saveJobs_singleton, hsave1]
    rfl
  -- resolving the company against the extended store is stable
  have hfind2 : (saveJobsToDatabase [j] b1 s1 db).db.companies.find?
      (fun c => c.2 == j.company) = some ((findOrCreateCompany j.company db).1, j.company) := by
    rw [hr1]
    exact foc_find j.company db
  have hfoc2 : findOrCreateCompany j.company (saveJobsToDatabase [j] b1 s1 db).db
      = ((findOrCreateCompany j.company db).1, (saveJobsToDatabase [j] b1 s1 db).db) :=
    foc_stable j.company _ _ hfind2
  -- the identity lookup in the extended store finds the inserted record
  have hfindnew : (saveJobsToDatabase [j] b1 s1 db).db.jobs.find?
      (jobMatches j.title (resolveCid j db) j.location)
      = some (mkStoredJob j (findOrCreateCompany j.company db).1 b1 s1
                (findOrCreateCompany j.company db).2.nextJobId) := by
    rw [hr1]
    show ((findOrCreateCompany j.company db).2.jobs ++ [_]).find? _ = _
    rw [hjobs1, find?_append_of_none _ _ _ (find?_eq_none_of _ _ hnew)]
    rw [List.find?_cons_of_pos _ hmatch_new]
  have hsave2 := saveOneJob_update j b2 s2 (saveJobsToDatabase [j] b1 s1 db).db
    (mkStoredJob j (findOrCreateCompany j.company db).1 b1 s1
      (findOrCreateCompany j.company db).2.nextJobId)
    (by rw [hfoc2]; exact hfindnew)
  rw [hfoc2] at hsave2
  -- the update touches only the inserted record
  have hmap : (saveJobsToDatabase [j] b1 s1 db).db.jobs.map
      (fun sj => if sj.jobId = (mkStoredJob j (findOrCreateCompany j.company db).1 b1 s1
                    (findOrCreateCompany j.company db).2.nextJobId).jobId
                 then applyJobUpdate j (findOrCreateCompany j.company db).1 b2 s2 sj else sj)
      = db.jobs ++ [applyJobUpdate j (findOrCreateCompany j.company db).1 b2 s2
          (mkStoredJob j (findOrCreateCompany j.company db).1 b1 s1
            (findOrCreateCompany j.company db).2.nextJobId)] := by
    rw [hr1]
    show ((findOrCreateCompany j.company db).2.jobs ++ [_]).map _ = _
    rw [hjobs1, List.map_append]
    congr 1
    · apply map_id_of_mem
      intro sj hsj
      have hlt := hid sj hsj
      rw [if_neg]
      show ¬ sj.jobId = (mkStoredJob j _ b1 s1 (findOrCreateCompany j.company db).2.nextJobId).jobId
      simp only [mkStoredJob, hnext1]
      omega
    · rw [List.map_cons, List.map_nil, if_pos rfl]
  -- the updated record still matches the identity tuple
  have hmatch_upd :
      jobMatches j.title (resolveCid j db) j.location
        (applyJobUpdate j (findOrCreateCompany j.company db).1 b2 s2
          (mkStoredJob j (findOrCreateCompany j.company db).1 b1 s1
            (findOrCreateCompany j.company db).2.nextJobId)) = true := by
    simp [jobMatches, applyJobUpdate, resolveCid]
  have hr2 : saveJobsToDatabase [j] b2 s2 (saveJobsToDatabase [j] b1 s1 db).db =
      { db := { (saveJobsToDatabase [j] b1 s1 db).db with
                jobs := db.jobs ++ [applyJobUpdate j (findOrCreateCompany j.company db).1 b2 s2
                  (mkStoredJob j (findOrCreateCompany j.company db).1 b1 s1
                    (findOrCreateCompany j.company db).2.nextJobId)] },
        newCount := 0, updatedCount := 1 } := by
    rw [saveJobs_singleton, hsave2]
    show SaveRes.mk _ 0 1 = SaveRes.mk _ 0 1
    rw [← hmap]
  refine ⟨by rw [hr1], by rw [hr1], by rw [hr2], by rw [hr2], ?_, ?_⟩
  · rw [hr2]
    show (db.jobs ++ [_]).countP _ = 1
    rw [List.countP_append, countP_eq_zero_of _ _ hnew, List.countP_cons, hmatch_upd]
    rfl
  · refine ⟨applyJobUpdate j (findOrCreateCompany j.company db).1 b2 s2
      (mkStoredJob j (findOrCreateCompany j.company db).1 b1 s1
        (findOrCreateCompany j.company db).2.nextJobId), ?_, rfl, rfl⟩
    rw [hr2]
    show (db.jobs ++ [_]).find? _ = _
    rw [find?_append_of_none _ _ _ (find?_eq_none_of _ _ hnew)]
    rw [List.find?_cons_of_pos _ hmatch_upd]

/-- C4 witness: the two-round save of a concrete job against the empty
store, which satisfies both freshness hypotheses vacuously. -/
theorem c4_save_dedup_witness :
    ((∀ sj ∈ dbEmpty.jobs, sj.jobId < dbEmpty.nextJobId) ∧
     (∀ sj ∈ dbEmpty.jobs, jobMatches c4job.title (resolveCid c4job dbEmpty) c4job.location sj = false)) ∧
    C4Concl dbEmpty c4job "engineering" "engineering" "sess-1" "sess-2" :=
  ⟨⟨by simp [dbEmpty], by simp [dbEmpty]⟩,
   c4_save_dedup dbEmpty c4job "engineering" "engineering" "sess-1" "sess-2"
     (by simp [dbEmpty]) (by simp [dbEmpty])⟩

/-! ## Orchestrator lemmas -/

/-- The bucket loop partitions the buckets: failures (a rejecting fetch)
are appended to bucketsFailed in order, all other buckets to
bucketsCompleted in order. -/
theorem runBuckets_partition (fetch : String → Except String (List ParsedJob)) (filterOn : Bool)
    (iso sid : String) :
    ∀ (bs : List String) (st : OrchRes),
      (runBuckets fetch filterOn iso sid bs st).bucketsFailed
        = st.bucketsFailed ++ bs.filter (fun b => fetchFails fetch b) ∧
      (runBuckets fetch filterOn iso sid bs st).bucketsCompleted
        = st.bucketsCompleted ++ bs.filter (fun b => !(fetchFails fetch b)) := by
  intro bs
  induction bs with
  | nil => intro st; simp [runBuckets]
  | cons b rest ih =>
    intro st
    simp only [runBuckets]
    split
    · rename_i e heq
      have hb : fetchFails fetch b = true := by simp [fetchFails, heq]
      constructor
      · rw [(ih _).1]
        simp [hb, List.filter_cons]
      · rw [(ih _).2]
        simp [hb, List.filter_cons]
    · rename_i jobs heq
      have hb : fetchFails fetch b = false := by simp [fetchFails, heq]
      split
      · constructor
        · rw [(ih _).1]
          simp [hb, List.filter_cons]
        · rw [(ih _).2]
          simp [hb, List.filter_cons]
      · constructor
        · rw [(ih _).1]
          simp [hb, List.filter_cons, apply_ite (fun r : OrchRes => r.bucketsFailed)]
        · rw [(ih _).2]
          simp [hb, List.filter_cons, apply_ite (fun r : OrchRes => r.bucketsCompleted)]

/-- C5: for every run of the background task (entered after the session
was created), a bucket whose fetch throws lands in bucketsFailed while
the loop continues, every other bucket lands in bucketsCompleted, and
the final status is completed exactly when no bucket failed and partial
otherwise; concretely, three buckets with only bucket2 throwing yield a
partial session with completed [bucket1, bucket3] and failed
[bucket2]. -/
theorem c5_orchestrator_status (fetch : String → Except String (List ParsedJob)) (filterOn : Bool)
    (iso sid : String) (buckets : List String) (db0 : Db) :
    (runCrawlersBackground fetch filterOn iso sid buckets db0).bucketsFailed
      = buckets.filter (fun b => fetchFails fetch b) ∧
    (runCrawlersBackground fetch filterOn iso sid buckets db0).bucketsCompleted
      = buckets.filter (fun b => !(fetchFails fetch b)) ∧
    (runCrawlersBackground fetch filterOn iso sid buckets db0).status
      = (if (runCrawlersBackground fetch filterOn iso sid buckets db0).bucketsFailed = []
         then "completed" else "partial") ∧
    C5Concrete := by
  have hpart := runBuckets_partition fetch filterOn iso sid buckets
    { bucketsCompleted := [], bucketsFailed := [], status := "in_progress",
      totalApiCalls := 0, totalJobsFound := 0, countryJobsFound := 0,
      newJobsAdded := 0, jobsUpdated := 0, db := db0 }
  refine ⟨?_, ?_, rfl, by decide, by decide, by decide⟩
  · show (runBuckets fetch filterOn iso sid buckets _).bucketsFailed = _
    rw [hpart.1]
    rfl
  · show (runBuckets fetch filterOn iso sid buckets _).bucketsCompleted = _
    rw [hpart.2]
    rfl

end JobSearch
